import Mathlib

/-!
Shallow embedding of the credential & session lifecycle subsystem of the
e-movers backend (src/src/modules/auth/auth.service.ts, first class in the
file — the one the module exports — together with
src/src/modules/auth/auth.controller.ts and the Prisma user schema).

Modelling conventions:
* Time is `Nat`, milliseconds since epoch (`Date.now()`); a `Date` column that
  is nullable becomes `Option Nat`.
* The persistent user store is a `List User`; `findUnique` by email / id is
  `List.find?`, `update` maps the update over the row(s) with the given id,
  `create` appends a row with a fresh id.  The store enforces unique emails;
  none of the theorems below need that assumption unless stated.
* `crypto.randomInt(lo, hi)` draws uniformly from [lo, hi) — the upper bound
  is exclusive.  We model the randomness source as an explicit parameter
  `r : Nat` and the draw as `lo + r % (hi - lo)`, which has exactly the
  codomain [lo, hi).
* bcrypt is an external collaborator; we model `hash`/`compare` by an
  injective tagging function.  No theorem depends on anything but the boolean
  outcome of `compare`.
* JWTs are modelled symbolically: a signed token carries its payload and the
  secret it was signed with; `verify` checks the secret and the expiry.
  A `malformed` constructor stands for any string that is not a JWT.
* Every service operation returns `(Except AuthError α) × Db`: the second
  component is the user store after the call (JS exceptions abort the
  operation at the throw site, so mutations performed before a throw are
  kept, exactly as in the source).
-/

inductive UserRole
  | USER
  | ADMIN
deriving Repr, DecidableEq

inductive UserStatus
  | ACTIVE
  | SUSPENDED
  | PENDING_VERIFICATION
deriving Repr, DecidableEq

/-- A row of the `users` table (prisma schema), restricted to the columns the
auth service reads or writes. -/
structure User where
  id : Nat
  email : String
  password : String
  name : String
  firstName : String
  lastName : String
  phone : String
  role : UserRole
  status : UserStatus
  emailVerified : Bool
  emailVerificationToken : Option String
  resetPasswordToken : Option String
  resetPasswordExpires : Option Nat
  mfaEnabled : Bool
  lastLoginAt : Option Nat
  googleId : Option String
  profilePicture : Option String
  updatedAt : Nat
  isEmail : Bool
  isNotification : Bool
  fcmToken : Option String
deriving Repr, DecidableEq

/-- NestJS HTTP exceptions thrown by the auth service/controller, plus the
plain `Error` thrown when the refresh secret is missing. -/
inductive AuthError
  | Unauthorized (msg : String)
  | BadRequest (msg : String)
  | Conflict (msg : String)
  | InternalError (msg : String)
deriving Repr, DecidableEq

deriving instance DecidableEq for Except

abbrev Db := List User

def findByEmail (db : Db) (e : String) : Option User :=
  db.find? (fun u => u.email = e)

def findById (db : Db) (i : Nat) : Option User :=
  db.find? (fun u => u.id = i)

def updateById (db : Db) (i : Nat) (f : User → User) : Db :=
  db.map (fun u => if u.id = i then f u else u)

/-- Fresh id for `create` (SERIAL column: larger than every existing id). -/
def nextId (db : Db) : Nat :=
  (db.map User.id).foldr Nat.max 0 + 1

/-- JS truthiness of a nullable string column: `null` and `""` are falsy. -/
def strTruthy : Option String → Bool
  | none => false
  | some s => decide (s ≠ "")

/-- JS `String.prototype.toLowerCase()` (ASCII case folding, modelled as a
structural char map so the kernel can evaluate it). -/
def strToLower (s : String) : String :=
  ⟨s.data.map Char.toLower⟩

/-- Model of the external bcrypt collaborator's `hash` (cost factor 12). -/
def bcryptHash (plain : String) : String :=
  "$2b$12$" ++ plain

/-- Model of the external bcrypt collaborator's `compare`. -/
def bcryptCompare (plain hashed : String) : Bool :=
  hashed = bcryptHash plain

/-- `crypto.randomInt(lo, hi)`: uniform on [lo, hi), upper bound exclusive;
`r` is the randomness source. -/
def randomIntModel (lo hi r : Nat) : Nat :=
  lo + r % (hi - lo)

/-- `AuthService.generateOTP`: `randomInt(1000, 9999).toString()`. -/
def generateOTP (r : Nat) : String :=
  Nat.repr (randomIntModel 1000 9999 r)

/-- Environment configuration read through `ConfigService`. -/
structure Config where
  jwtSecret : String
  jwtRefreshSecret : Option String
  jwtExpiresIn : Nat
  jwtRefreshExpiresIn : Nat
  jwtExpiration : Option Nat
deriving Repr, DecidableEq

structure JwtPayload where
  sub : Nat
  email : String
  role : UserRole
  iat : Nat
  exp : Nat
deriving Repr, DecidableEq

/-- A JWT: either well formed (payload plus the secret that signed it) or
any non-JWT string. -/
inductive Token
  | signed (payload : JwtPayload) (secret : String)
  | malformed (raw : String)
deriving Repr, DecidableEq

/-- `jwtService.verify(token, secret)`: rejects malformed input, wrong
signature, and expired tokens. -/
def jwtVerify (tok : Token) (secret : String) (now : Nat) :
    Except String JwtPayload :=
  match tok with
  | .malformed _ => .error "jwt malformed"
  | .signed p s =>
    if s ≠ secret then .error "invalid signature"
    else if p.exp < now then .error "jwt expired"
    else .ok p

/-- Remaining validity of an access token at `now`, in seconds, computed
from the token's own `exp` claim (`exp` is in ms in this model). -/
def remainingValiditySecs (tok : Token) (now : Nat) : Nat :=
  match tok with
  | .signed p _ => (p.exp - now) / 1000
  | .malformed _ => 0

/-- `AuthService.generateTokens`: access token with the primary secret,
refresh token with `JWT_REFRESH_SECRET`; throws if the latter is missing. -/
def generateTokens (cfg : Config) (now : Nat) (u : User) :
    Except AuthError (Token × Token) :=
  let payload : JwtPayload :=
    { sub := u.id, email := u.email, role := u.role,
      iat := now, exp := now + cfg.jwtExpiresIn }
  match cfg.jwtRefreshSecret with
  | none => .error (.InternalError "JWT_REFRESH_SECRET is not configured")
  | some rs =>
    .ok (.signed payload cfg.jwtSecret,
         .signed { payload with exp := now + cfg.jwtRefreshExpiresIn } rs)

/-- The Redis revocation cache: list of (key, value, ttlSeconds) entries. -/
abbrev RedisStore := List (String × String × Nat)

/-- `RedisService.set(key, value, ttl)`: overwrite the key. -/
def redisSet (s : RedisStore) (k v : String) (ttl : Nat) : RedisStore :=
  (k, v, ttl) :: s.filter (fun e => e.1 ≠ k)

/-- `RedisService.get(key)`. -/
def redisGet (s : RedisStore) (k : String) : Option String :=
  (s.find? (fun e => e.1 = k)).map (fun e => e.2.1)

/-- `{ status, message }` success envelope. -/
structure StatusMsg where
  status : String
  message : String
deriving Repr, DecidableEq

/-- The user projection returned by `login` (no password field exists). -/
structure LoginUserProjection where
  id : Nat
  email : String
  firstname : String
  lastname : String
  role : UserRole
  emailVerified : Bool
  mfaEnabled : Bool
  isEmail : Bool
  isNotification : Bool
  profilePicture : Option String
deriving Repr, DecidableEq

inductive LoginResp
  | mfaPending (message : String) (mfaRequired : Bool) (email : String)
  | success (status message : String) (user : LoginUserProjection)
      (accessToken refreshToken : Token)
deriving Repr, DecidableEq

/-- The user projection returned by `verifyOtp` (no password field exists). -/
structure OtpUserProjection where
  id : Nat
  email : String
  role : UserRole
  emailVerified : Bool
  mfaEnabled : Bool
  isEmail : Bool
  isNotification : Bool
deriving Repr, DecidableEq

structure VerifyOtpResp where
  status : String
  message : String
  user : OtpUserProjection
  accessToken : Token
  refreshToken : Token
deriving Repr, DecidableEq

structure RegisterResp where
  status : String
  message : String
  userId : Nat
deriving Repr, DecidableEq

structure RegisterDto where
  email : String
  password : String
  firstName : String
  lastName : String
  phone : String
deriving Repr, DecidableEq

structure LoginDto where
  email : String
  password : String
  fcmToken : Option String
deriving Repr, DecidableEq

structure ResetPasswordDto where
  email : String
  otp : String
  newPassword : String
  confirmPassword : String
deriving Repr, DecidableEq

structure ChangePasswordDto where
  currentPassword : String
  newPassword : String
deriving Repr, DecidableEq

/-- `AuthService.login` (auth.service.ts:77-160). -/
def login (cfg : Config) (db : Db) (now r : Nat) (dto : LoginDto) :
    Except AuthError LoginResp × Db :=
  match findByEmail db dto.email with
  | none => (.error (.Unauthorized "No account found with this email."), db)
  | some user =>
    if !user.emailVerified then
      (.error (.Unauthorized
        "Email not verified. Please check your email for verification OTP."), db)
    else if !bcryptCompare dto.password user.password then
      (.error (.Unauthorized "Incorrect password."), db)
    else
      let db1 :=
        if strTruthy dto.fcmToken then
          updateById db user.id (fun u => { u with fcmToken := dto.fcmToken })
        else db
      if user.mfaEnabled then
        let otp := generateOTP r
        let db2 := updateById db1 user.id (fun u =>
          { u with resetPasswordToken := some otp,
                   resetPasswordExpires := some (now + 5 * 60 * 1000) })
        (.ok (.mfaPending "OTP sent to your email for verification." true
          user.email), db2)
      else
        let db2 := updateById db1 user.id (fun u =>
          { u with lastLoginAt := some now })
        match generateTokens cfg now user with
        | .error e => (.error e, db2)
        | .ok (at_, rt) =>
          (.ok (.success "success" "Successfully logged in."
            { id := user.id, email := user.email,
              firstname := user.firstName, lastname := user.lastName,
              role := user.role, emailVerified := user.emailVerified,
              mfaEnabled := user.mfaEnabled, isEmail := user.isEmail,
              isNotification := user.isNotification,
              profilePicture := user.profilePicture } at_ rt), db2)

/-- `AuthService.sendOtp` (auth.service.ts:162-178). -/
def sendOtp (db : Db) (now r : Nat) (email : String) :
    Except AuthError StatusMsg × Db :=
  match findByEmail db email with
  | none => (.error (.BadRequest "User not found."), db)
  | some user =>
    let otp := generateOTP r
    let db1 := updateById db user.id (fun u =>
      { u with resetPasswordToken := some otp,
               resetPasswordExpires := some (now + 5 * 60 * 1000) })
    (.ok ⟨"success", "OTP sent successfully."⟩, db1)

/-- `verifyOtp` success path: clear the OTP fields, stamp `lastLoginAt`,
issue tokens from the pre-update row. -/
def verifyOtpTail (cfg : Config) (db : Db) (now : Nat) (user : User) :
    Except AuthError VerifyOtpResp × Db :=
  let db1 := updateById db user.id (fun u =>
    { u with resetPasswordToken := none, resetPasswordExpires := none,
             lastLoginAt := some now })
  match generateTokens cfg now user with
  | .error e => (.error e, db1)
  | .ok (at_, rt) =>
    (.ok { status := "success", message := "OTP verified successfully.",
           user := { id := user.id, email := user.email, role := user.role,
                     emailVerified := user.emailVerified,
                     mfaEnabled := user.mfaEnabled, isEmail := user.isEmail,
                     isNotification := user.isNotification },
           accessToken := at_, refreshToken := rt }, db1)

/-- `AuthService.verifyOtp` (auth.service.ts:180-219). -/
def verifyOtp (cfg : Config) (db : Db) (now : Nat) (email otp : String) :
    Except AuthError VerifyOtpResp × Db :=
  match findByEmail db email with
  | none => (.error (.BadRequest "User not found."), db)
  | some user =>
    if !strTruthy user.resetPasswordToken ∨ user.resetPasswordToken ≠ some otp then
      (.error (.Unauthorized "Invalid or expired OTP."), db)
    else
      match user.resetPasswordExpires with
      | some e =>
        if e < now then (.error (.Unauthorized "OTP expired."), db)
        else verifyOtpTail cfg db now user
      | none => verifyOtpTail cfg db now user

/-- The row `register` inserts on its success path (hoisted so theorems can
refer to the created user). -/
def registerRow (db : Db) (now r : Nat) (dto : RegisterDto) : User :=
  { id := nextId db,
    email := strToLower dto.email,
    password := bcryptHash dto.password,
    name := (dto.firstName ++ " " ++ dto.lastName).trim,
    firstName := dto.firstName, lastName := dto.lastName,
    phone := dto.phone,
    role := .USER, status := .PENDING_VERIFICATION,
    emailVerified := false,
    emailVerificationToken := some (generateOTP r),
    resetPasswordToken := none,
    resetPasswordExpires := some (now + 10 * 60 * 1000),
    mfaEnabled := false, lastLoginAt := none,
    googleId := none, profilePicture := none,
    updatedAt := now, isEmail := true, isNotification := true,
    fcmToken := none }

/-- `AuthService.register` (auth.service.ts:221-268). -/
def register (db : Db) (now r : Nat) (dto : RegisterDto) :
    Except AuthError RegisterResp × Db :=
  match findByEmail db (strToLower dto.email) with
  | some _ => (.error (.Conflict "User with this email already exists"), db)
  | none =>
    let user : User := registerRow db now r dto
    (.ok ⟨"success",
      "Registration successful. Please check your email for verification OTP.",
      user.id⟩, db ++ [user])

/-- `verifyEmail` success-path update: verified, ACTIVE, slot cleared. -/
def verifyEmailApply (db : Db) (now : Nat) (uid : Nat) : Db :=
  updateById db uid (fun u =>
    { u with emailVerified := true, status := .ACTIVE,
             emailVerificationToken := none, resetPasswordExpires := none,
             updatedAt := now })

/-- `AuthService.verifyEmail` (auth.service.ts:271-313). -/
def verifyEmail (db : Db) (now : Nat) (email otp : String) :
    Except AuthError StatusMsg × Db :=
  match findByEmail db (strToLower email) with
  | none => (.error (.BadRequest "User not found"), db)
  | some user =>
    if user.emailVerified then
      (.ok ⟨"success", "Email already verified"⟩, db)
    else if !strTruthy user.emailVerificationToken ∨
        user.emailVerificationToken ≠ some otp then
      (.error (.BadRequest "Invalid OTP"), db)
    else
      match user.resetPasswordExpires with
      | some e =>
        if e < now then
          (.error (.BadRequest "OTP expired. Please request a new one."), db)
        else (.ok ⟨"success", "Email verified successfully"⟩,
          verifyEmailApply db now user.id)
      | none => (.ok ⟨"success", "Email verified successfully"⟩,
          verifyEmailApply db now user.id)

/-- `AuthService.resendEmailVerificationOTP` (auth.service.ts:316-351). -/
def resendEmailVerificationOTP (db : Db) (now r : Nat) (email : String) :
    Except AuthError StatusMsg × Db :=
  match findByEmail db (strToLower email) with
  | none => (.error (.BadRequest "User not found"), db)
  | some user =>
    if user.emailVerified then
      (.ok ⟨"success", "Email already verified"⟩, db)
    else
      let otp := generateOTP r
      let db1 := updateById db user.id (fun u =>
        { u with emailVerificationToken := some otp,
                 resetPasswordExpires := some (now + 10 * 60 * 1000) })
      (.ok ⟨"success", "Verification OTP sent successfully."⟩, db1)

/-- `AuthService.changePassword` (auth.service.ts:354-389). -/
def changePassword (db : Db) (now : Nat) (userId : Nat)
    (dto : ChangePasswordDto) : Except AuthError StatusMsg × Db :=
  match findById db userId with
  | none => (.error (.Unauthorized "User not found"), db)
  | some user =>
    if !bcryptCompare dto.currentPassword user.password then
      (.error (.Unauthorized "Current password is incorrect"), db)
    else
      let db1 := updateById db userId (fun u =>
        { u with password := bcryptHash dto.newPassword, updatedAt := now })
      (.ok ⟨"success", "Password changed successfully"⟩, db1)

/-- The one generic envelope `forgotPassword` ever returns. -/
def forgotPasswordEnvelope : StatusMsg :=
  ⟨"success",
   "If an account with this email exists, a password reset OTP has been sent."⟩

/-- `AuthService.forgotPassword` (auth.service.ts:391-432). -/
def forgotPassword (db : Db) (now r : Nat) (email : String) :
    Except AuthError StatusMsg × Db :=
  match findByEmail db (strToLower email) with
  | none => (.ok forgotPasswordEnvelope, db)
  | some user =>
    let otp := generateOTP r
    let db1 := updateById db user.id (fun u =>
      { u with resetPasswordToken := some otp,
               resetPasswordExpires := some (now + 10 * 60 * 1000) })
    (.ok forgotPasswordEnvelope, db1)

/-- `resetPassword` success-path update: new password hash, OTP slot
cleared. -/
def resetPasswordApply (db : Db) (now : Nat) (uid : Nat)
    (newPassword : String) : Db :=
  updateById db uid (fun u =>
    { u with password := bcryptHash newPassword,
             resetPasswordToken := none, resetPasswordExpires := none,
             updatedAt := now })

/-- `AuthService.resetPassword` (auth.service.ts:435-478). -/
def resetPassword (db : Db) (now : Nat) (dto : ResetPasswordDto) :
    Except AuthError StatusMsg × Db :=
  if dto.newPassword ≠ dto.confirmPassword then
    (.error (.BadRequest "Passwords do not match"), db)
  else
    match findByEmail db (strToLower dto.email) with
    | none => (.error (.BadRequest "User not found"), db)
    | some user =>
      if !strTruthy user.resetPasswordToken ∨
          user.resetPasswordToken ≠ some dto.otp then
        (.error (.BadRequest "Invalid OTP"), db)
      else
        match user.resetPasswordExpires with
        | some e =>
          if e < now then
            (.error (.BadRequest "OTP expired. Please request a new one."), db)
          else (.ok ⟨"success", "Password reset successfully"⟩,
            resetPasswordApply db now user.id dto.newPassword)
        | none => (.ok ⟨"success", "Password reset successfully"⟩,
            resetPasswordApply db now user.id dto.newPassword)

/-- `AuthService.refreshToken` (auth.service.ts:480-505): the whole body is
wrapped in try/catch and every failure is rethrown as the same generic
`UnauthorizedException('Invalid refresh token')`. -/
def refreshToken (cfg : Config) (db : Db) (now : Nat) (tok : Token) :
    Except AuthError (Token × Token) × Db :=
  match cfg.jwtRefreshSecret with
  | none => (.error (.Unauthorized "Invalid refresh token"), db)
  | some rs =>
    match jwtVerify tok rs now with
    | .error _ => (.error (.Unauthorized "Invalid refresh token"), db)
    | .ok payload =>
      match findById db payload.sub with
      | none => (.error (.Unauthorized "Invalid refresh token"), db)
      | some user =>
        let db1 := updateById db user.id (fun u =>
          { u with lastLoginAt := some now })
        match generateTokens cfg now user with
        | .error _ => (.error (.Unauthorized "Invalid refresh token"), db1)
        | .ok pair => (.ok pair, db1)

/-- `AuthService.logout` (auth.service.ts:507-518): ttl is read from the
`JWT_EXPIRATION` config key with default 3600, and the raw token string is
blacklisted in Redis with that ttl. -/
def logout (cfg : Config) (cache : RedisStore) (userId : Nat)
    (token : String) : Except AuthError StatusMsg × RedisStore :=
  let ttl := cfg.jwtExpiration.getD 3600
  (.ok ⟨"success", "Logged out successfully"⟩,
   redisSet cache ("blacklist:" ++ token) "true" ttl)

/-- `AuthService.isTokenBlacklisted` (auth.service.ts:520-523). -/
def isTokenBlacklisted (cache : RedisStore) (token : String) : Bool :=
  (redisGet cache ("blacklist:" ++ token)).isSome

/-- Strip `pat` from the front of `l`, or fail. -/
def dropPrefixChars : List Char → List Char → Option (List Char)
  | [], l => some l
  | _ :: _, [] => none
  | p :: ps, c :: cs => if c = p then dropPrefixChars ps cs else none

/-- First-occurrence replacement on char lists. -/
def replaceFirstChars (pat repl : List Char) : List Char → List Char
  | [] =>
    match dropPrefixChars pat [] with
    | some rest => repl ++ rest
    | none => []
  | c :: cs =>
    match dropPrefixChars pat (c :: cs) with
    | some rest => repl ++ rest
    | none => c :: replaceFirstChars pat repl cs

/-- JS `String.replace(pattern, replacement)` with a string pattern replaces
only the first occurrence. -/
def replaceFirst (s pat repl : String) : String :=
  ⟨replaceFirstChars pat.data repl.data s.data⟩

/-- `AuthController.logout` (auth.controller.ts:126-136): strips "Bearer "
from the Authorization header, rejects a missing/empty token, then calls the
service. -/
def controllerLogout (cfg : Config) (cache : RedisStore) (userId : Nat)
    (authHeader : Option String) : Except AuthError StatusMsg × RedisStore :=
  match authHeader with
  | none => (.error (.Unauthorized "Token not found"), cache)
  | some h =>
    let token := replaceFirst h "Bearer " ""
    if token = "" then (.error (.Unauthorized "Token not found"), cache)
    else logout cfg cache userId token

/-! ## Store lemmas -/

/-- `find?` commutes with a `map` whose function does not change the
predicate's verdict. -/
theorem find?_map_pres (g : User → User) (p : User → Bool) (db : List User)
    (hg : ∀ u, p (g u) = p u) :
    (db.map g).find? p = (db.find? p).map g := by
  induction db with
  | nil => rfl
  | cons hd tl ih =>
    by_cases h : p hd = true
    · rw [List.map_cons, List.find?_cons_of_pos _ (by rw [hg]; exact h),
        List.find?_cons_of_pos _ h]
      rfl
    · rw [List.map_cons, List.find?_cons_of_neg _ (by rw [hg]; simpa using h),
        List.find?_cons_of_neg _ (by simpa using h), ih]

/-- Looking a user up by email after an email-preserving `update`. -/
theorem findByEmail_updateById (db : Db) (i : Nat) (f : User → User)
    (hf : ∀ u, (f u).email = u.email) (e : String) :
    findByEmail (updateById db i f) e =
      (findByEmail db e).map (fun u => if u.id = i then f u else u) := by
  unfold findByEmail updateById
  apply find?_map_pres
  intro u
  by_cases h : u.id = i <;> simp [h, hf]

/-- Looking a user up by id after an id-preserving `update`. -/
theorem findById_updateById (db : Db) (i : Nat) (f : User → User)
    (hf : ∀ u, (f u).id = u.id) (j : Nat) :
    findById (updateById db i f) j =
      (findById db j).map (fun u => if u.id = i then f u else u) := by
  unfold findById updateById
  apply find?_map_pres
  intro u
  by_cases h : u.id = i <;> simp [h, hf]

theorem findByEmail_append_of_some (db l : Db) (e : String) (u : User)
    (h : findByEmail db e = some u) : findByEmail (db ++ l) e = some u := by
  unfold findByEmail at *
  rw [List.find?_append, h]
  rfl

theorem findByEmail_append_of_none (db l : Db) (e : String)
    (h : findByEmail db e = none) : findByEmail (db ++ l) e = findByEmail l e := by
  unfold findByEmail at *
  rw [List.find?_append, h]
  rfl

theorem findById_append_of_some (db l : Db) (i : Nat) (u : User)
    (h : findById db i = some u) : findById (db ++ l) i = some u := by
  unfold findById at *
  rw [List.find?_append, h]
  rfl

/-- A row found by email guarantees some row with that id is found by id. -/
theorem findById_of_findByEmail (db : Db) (e : String) (u : User)
    (h : findByEmail db e = some u) :
    ∃ v, findById db u.id = some v ∧ v.id = u.id := by
  have hmem : u ∈ db := List.mem_of_find?_eq_some h
  have hsome : (findById db u.id).isSome := by
    unfold findById
    exact List.find?_isSome.mpr ⟨u, hmem, by simp⟩
  obtain ⟨v, hv⟩ := Option.isSome_iff_exists.mp hsome
  refine ⟨v, hv, ?_⟩
  have := List.find?_some hv
  simpa using this

/-- db' keeps every user's (emailVerified, status) as it was in db. -/
def PreservesVS (db db' : Db) : Prop :=
  ∀ i u, findById db i = some u →
    ∃ u', findById db' i = some u' ∧ u'.emailVerified = u.emailVerified ∧
      u'.status = u.status

theorem preservesVS_refl (db : Db) : PreservesVS db db :=
  fun _ u h => ⟨u, h, rfl, rfl⟩

theorem preservesVS_trans {db1 db2 db3 : Db} (h1 : PreservesVS db1 db2)
    (h2 : PreservesVS db2 db3) : PreservesVS db1 db3 := by
  intro i u h
  obtain ⟨v, hv, hev, hst⟩ := h1 i u h
  obtain ⟨w, hw, hev2, hst2⟩ := h2 i v hv
  exact ⟨w, hw, hev2.trans hev, hst2.trans hst⟩

theorem preservesVS_update (db : Db) (i : Nat) (f : User → User)
    (hid : ∀ u, (f u).id = u.id)
    (hev : ∀ u, (f u).emailVerified = u.emailVerified)
    (hst : ∀ u, (f u).status = u.status) :
    PreservesVS db (updateById db i f) := by
  intro j u h
  rw [findById_updateById db i f hid j, h]
  by_cases hc : u.id = i <;> simp [hc, hev, hst]

theorem preservesVS_append (db l : Db) : PreservesVS db (db ++ l) :=
  fun _ u h => ⟨u, findById_append_of_some _ _ _ _ h, rfl, rfl⟩

/-! ## Decimal representation lemmas -/

theorem toDigitsCore_step (f n : Nat) (ds : List Char) :
    Nat.toDigitsCore 10 (f + 1) n ds =
      if n / 10 = 0 then Nat.digitChar (n % 10) :: ds
      else Nat.toDigitsCore 10 f (n / 10) (Nat.digitChar (n % 10) :: ds) := by
  simp [Nat.toDigitsCore]

theorem toDigitsCore_four (n : Nat) (h1 : 1000 ≤ n) (h2 : n < 10000) :
    ∀ f ds, n < f → Nat.toDigitsCore 10 f n ds =
      Nat.digitChar (n / 1000 % 10) :: Nat.digitChar (n / 100 % 10) ::
      Nat.digitChar (n / 10 % 10) :: Nat.digitChar (n % 10) :: ds := by
  intro f ds hf
  obtain ⟨f1, rfl⟩ : ∃ m, f = m + 1 := ⟨f - 1, by omega⟩
  rw [toDigitsCore_step, if_neg (by omega)]
  obtain ⟨f2, rfl⟩ : ∃ m, f1 = m + 1 := ⟨f1 - 1, by omega⟩
  rw [toDigitsCore_step, if_neg (by omega)]
  obtain ⟨f3, rfl⟩ : ∃ m, f2 = m + 1 := ⟨f2 - 1, by omega⟩
  rw [toDigitsCore_step, if_neg (by omega)]
  obtain ⟨f4, rfl⟩ : ∃ m, f3 = m + 1 := ⟨f3 - 1, by omega⟩
  rw [toDigitsCore_step, if_pos (by omega)]
  have e3 : n / 100 / 10 % 10 = n / 1000 % 10 := by omega
  have e1 : n / 10 / 10 = n / 100 := by omega
  rw [e1, e3]

/-- The decimal string of a number in [1000, 10000) is its four digit
characters. -/
theorem repr_four (n : Nat) (h1 : 1000 ≤ n) (h2 : n < 10000) :
    Nat.repr n = String.mk [Nat.digitChar (n / 1000 % 10),
      Nat.digitChar (n / 100 % 10), Nat.digitChar (n / 10 % 10),
      Nat.digitChar (n % 10)] := by
  show (Nat.toDigits 10 n).asString = _
  rw [Nat.toDigits, toDigitsCore_four n h1 h2 (n + 1) [] (by omega)]
  rfl

theorem digitChar_isDigit (m : Nat) (h : m < 10) :
    (Nat.digitChar m).isDigit = true := by
  interval_cases m <;> decide
/-! ## Shared concrete fixtures for witnesses and counterexamples -/

/-- A concrete active, verified user row. -/
def baseUser : User :=
  { id := 1, email := "alice@example.com", password := bcryptHash "Passw0rd!",
    name := "Alice A", firstName := "Alice", lastName := "A", phone := "0500",
    role := .USER, status := .ACTIVE, emailVerified := true,
    emailVerificationToken := none, resetPasswordToken := none,
    resetPasswordExpires := none, mfaEnabled := false, lastLoginAt := none,
    googleId := none, profilePicture := none, updatedAt := 0,
    isEmail := true, isNotification := true, fcmToken := none }

/-- A concrete configuration with both secrets present and no
`JWT_EXPIRATION` override. -/
def baseCfg : Config :=
  { jwtSecret := "access-secret", jwtRefreshSecret := some "refresh-secret",
    jwtExpiresIn := 900000, jwtRefreshExpiresIn := 604800000,
    jwtExpiration := none }

def isBadRequestErr : AuthError → Bool
  | .BadRequest _ => true
  | _ => false

/-! ## Claim theorems -/

/-- C6: every `forgotPassword` call returns the same generic success
envelope — identical status and message whether or not the email exists in
the store, so the response does not reveal whether an account exists. -/
theorem c6_forgotPassword_uniform_response (db1 db2 : Db) (now1 now2 r1 r2 : Nat)
    (e1 e2 : String) :
    (forgotPassword db1 now1 r1 e1).1 = .ok forgotPasswordEnvelope ∧
    (forgotPassword db1 now1 r1 e1).1 = (forgotPassword db2 now2 r2 e2).1 := by
  have key : ∀ (db : Db) (now r : Nat) (e : String),
      (forgotPassword db now r e).1 = .ok forgotPasswordEnvelope := by
    intro db now r e
    unfold forgotPassword
    cases findByEmail db (strToLower e) <;> rfl
  exact ⟨key db1 now1 r1 e1,
    (key db1 now1 r1 e1).trans (key db2 now2 r2 e2).symm⟩

/-- C5: every failure of `refreshToken` — missing/wrong secret, malformed
token, expired token, or subject with no matching user — surfaces as the
single generic `Unauthorized('Invalid refresh token')`; the conjuncts also
show that each of those failure modes does fail. -/
theorem c5_refresh_uniform_unauthorized (cfg : Config) (db : Db) (now : Nat)
    (tok : Token) :
    ((refreshToken cfg db now tok).1.isOk = true ∨
      (refreshToken cfg db now tok).1 =
        .error (.Unauthorized "Invalid refresh token")) ∧
    (∀ raw, (refreshToken cfg db now (.malformed raw)).1 =
      .error (.Unauthorized "Invalid refresh token")) ∧
    (∀ p s rs, cfg.jwtRefreshSecret = some rs → s ≠ rs →
      (refreshToken cfg db now (.signed p s)).1 =
        .error (.Unauthorized "Invalid refresh token")) ∧
    (∀ p rs, cfg.jwtRefreshSecret = some rs → p.exp < now →
      (refreshToken cfg db now (.signed p rs)).1 =
        .error (.Unauthorized "Invalid refresh token")) ∧
    (∀ p rs, cfg.jwtRefreshSecret = some rs → ¬ p.exp < now →
      findById db p.sub = none →
      (refreshToken cfg db now (.signed p rs)).1 =
        .error (.Unauthorized "Invalid refresh token")) := by
  refine ⟨?_, ?_, ?_, ?_, ?_⟩
  · unfold refreshToken
    split
    · right; rfl
    · split
      · right; rfl
      · split
        · right; rfl
        · simp only []
          split
          · right; rfl
          · left; rfl
  · intro raw
    unfold refreshToken
    split
    · rfl
    · rfl
  · intro p s rs hrs hne
    simp [refreshToken, hrs, jwtVerify, hne]
  · intro p rs hrs hexp
    simp [refreshToken, hrs, jwtVerify, hexp]
  · intro p rs hrs hexp hu
    simp [refreshToken, hrs, jwtVerify, hexp, hu]

/-- C5 witness: concrete instances of the malformed-token and expired-token
failure modes. -/
theorem c5_witness :
    (refreshToken baseCfg [] 0 (.malformed "not-a-jwt")).1 =
      .error (.Unauthorized "Invalid refresh token") ∧
    (refreshToken baseCfg [] 10
      (.signed { sub := 1, email := "alice@example.com", role := .USER,
                 iat := 0, exp := 5 } "refresh-secret")).1 =
      .error (.Unauthorized "Invalid refresh token") :=
  ⟨(c5_refresh_uniform_unauthorized baseCfg [] 0 (.malformed "not-a-jwt")).2.1
      "not-a-jwt",
   (c5_refresh_uniform_unauthorized baseCfg [] 10 (.malformed "x")).2.2.2.1
      { sub := 1, email := "alice@example.com", role := .USER, iat := 0,
        exp := 5 } "refresh-secret" rfl (by decide)⟩

/-- Wire form of a JWT: the raw string the controller extracts from the
Authorization header and hands to `AuthService.logout`. -/
def tokenWire : Token → String
  | .signed p s => s ++ "." ++ p.email ++ "." ++ Nat.repr p.sub ++ "." ++
      Nat.repr p.iat ++ "." ++ Nat.repr p.exp
  | .malformed raw => raw

/-- An access token that, at time 0, has 100 seconds of validity left. -/
def c1Token : Token :=
  .signed { sub := 1, email := "alice@example.com", role := .USER,
            iat := 0, exp := 100000 } "access-secret"

/-- C1 counterexample: `logout` stores the blacklist entry with the fixed
configured TTL (default 3600 s), not the 100 s of remaining validity the
presented token actually has, so the claimed TTL computation is false. -/
theorem c1_counterexample :
    remainingValiditySecs c1Token 0 = 100 ∧
    (logout baseCfg [] 1 (tokenWire c1Token)).2 =
      [("blacklist:" ++ tokenWire c1Token, "true", 3600)] ∧
    (3600 : Nat) ≠ 100 := by
  refine ⟨rfl, rfl, by decide⟩

/-- C1 amended: on logout the presented token is blacklisted with the fixed
configured TTL `JWT_EXPIRATION` (default 3600 s) — not a TTL derived from
the token's own expiry claim — the call returns success, and the controller
fails only when no (or an empty) bearer token is supplied. -/
theorem c1_amended_logout_fixed_ttl (cfg : Config) (cache : RedisStore)
    (uid : Nat) (token : String) :
    (logout cfg cache uid token =
      (.ok ⟨"success", "Logged out successfully"⟩,
       redisSet cache ("blacklist:" ++ token) "true"
         (cfg.jwtExpiration.getD 3600))) ∧
    (controllerLogout cfg cache uid none =
      (.error (.Unauthorized "Token not found"), cache)) ∧
    (∀ h, replaceFirst h "Bearer " "" = token → token ≠ "" →
      controllerLogout cfg cache uid (some h) =
        (.ok ⟨"success", "Logged out successfully"⟩,
         redisSet cache ("blacklist:" ++ token) "true"
           (cfg.jwtExpiration.getD 3600))) := by
  refine ⟨rfl, rfl, ?_⟩
  intro h hstrip hne
  simp only [controllerLogout]
  rw [hstrip, if_neg hne]
  rfl

/-- C1 amended witness: a concrete bearer header is stripped, blacklisted
with the default TTL 3600, and the call succeeds. -/
theorem c1_amended_witness :
    controllerLogout baseCfg [] 7 (some ("Bearer " ++ tokenWire c1Token)) =
      (.ok ⟨"success", "Logged out successfully"⟩,
       [("blacklist:" ++ tokenWire c1Token, "true", 3600)]) :=
  (c1_amended_logout_fixed_ttl baseCfg [] 7 (tokenWire c1Token)).2.2
    ("Bearer " ++ tokenWire c1Token) (by decide) (by decide)

/-- C10: every OTP from `generateOTP` is the decimal string of a number in
[1000, 9998] (the upper bound of `randomInt` is exclusive, so 9999 never
occurs), has exactly 4 characters, all decimal digits; and the same single
generator feeds the registration, login-MFA, send-OTP and password-reset
flows. -/
theorem c10_generateOTP_four_digits (r : Nat) :
    generateOTP r = Nat.repr (1000 + r % 8999) ∧
    1000 ≤ 1000 + r % 8999 ∧ 1000 + r % 8999 ≤ 9998 ∧
    (generateOTP r).length = 4 ∧
    (∀ c ∈ (generateOTP r).data, c.isDigit = true) ∧
    (∀ db now dto, findByEmail db (strToLower dto.email) = none →
      ∃ nu, (register db now r dto).2 = db ++ [nu] ∧
        nu.emailVerificationToken = some (generateOTP r)) ∧
    (∀ cfg db now dto u, findByEmail db (LoginDto.email dto) = some u →
      u.emailVerified = true → bcryptCompare dto.password u.password = true →
      u.mfaEnabled = true → dto.fcmToken = none →
      findByEmail (login cfg db now r dto).2 dto.email =
        some { u with resetPasswordToken := some (generateOTP r),
                      resetPasswordExpires := some (now + 5 * 60 * 1000) }) ∧
    (∀ db now email u, findByEmail db email = some u →
      findByEmail (sendOtp db now r email).2 email =
        some { u with resetPasswordToken := some (generateOTP r),
                      resetPasswordExpires := some (now + 5 * 60 * 1000) }) ∧
    (∀ db now email u, findByEmail db (strToLower email) = some u →
      findByEmail (forgotPassword db now r email).2 (strToLower email) =
        some { u with resetPasswordToken := some (generateOTP r),
                      resetPasswordExpires := some (now + 10 * 60 * 1000) }) := by
  have hb1 : 1000 ≤ 1000 + r % 8999 := by omega
  have hb2 : 1000 + r % 8999 ≤ 9998 := by omega
  have hrepr : generateOTP r = Nat.repr (1000 + r % 8999) := rfl
  have hfour := repr_four (1000 + r % 8999) hb1 (by omega)
  refine ⟨hrepr, hb1, hb2, ?_, ?_, ?_, ?_, ?_, ?_⟩
  · rw [hrepr, hfour]
    rfl
  · rw [hrepr, hfour]
    intro c hc
    simp only [List.mem_cons, List.not_mem_nil, or_false] at hc
    rcases hc with rfl | rfl | rfl | rfl <;>
      exact digitChar_isDigit _ (Nat.mod_lt _ (by norm_num))
  · intro db now dto hfind
    unfold register
    rw [hfind]
    exact ⟨_, rfl, rfl⟩
  · intro cfg db now dto u hfind hver hpw hmfa hfcm
    simp only [login, hfind, hver, hpw, hmfa, hfcm, strTruthy]
    simp only [Bool.not_true, Bool.false_eq_true, if_false, if_true]
    rw [findByEmail_updateById db u.id]
    · rw [hfind]
      simp [hver, hmfa]
    · intro v
      rfl
  · intro db now email u hfind
    unfold sendOtp
    rw [hfind]
    simp only []
    rw [findByEmail_updateById db u.id]
    · rw [hfind]
      simp
    · intro v
      rfl
  · intro db now email u hfind
    unfold forgotPassword
    rw [hfind]
    simp only []
    rw [findByEmail_updateById db u.id]
    · rw [hfind]
      simp
    · intro v
      rfl

/-- C10 witness: with randomness source 111 the generated OTP is the
4-digit string "1111", and the send-OTP flow stores exactly that code. -/
theorem c10_witness :
    generateOTP 111 = "1111" ∧ (generateOTP 111).length = 4 ∧
    findByEmail ((sendOtp [baseUser] 0 111 "alice@example.com").2)
        "alice@example.com" =
      some { baseUser with resetPasswordToken := some (generateOTP 111),
                           resetPasswordExpires := some 300000 } := by
  have h := c10_generateOTP_four_digits 111
  refine ⟨by decide, h.2.2.2.1, ?_⟩
  have hs := h.2.2.2.2.2.2.2.1 [baseUser] 0 "alice@example.com" baseUser
    (by decide)
  simpa using hs

/-- C4: a challenge whose stored expiry lies in the past is rejected with an
expiry error by both `verifyOtp` and `resetPassword` even though the
supplied code matches the stored one, and the user store is returned
unchanged (the code is not cleared on expiry). -/
theorem c4_expired_challenge_rejected (cfg : Config) (db : Db) (now e : Nat)
    (email : String) (u : User)
    (hexp : u.resetPasswordExpires = some e) (hlt : e < now) :
    (∀ c, findByEmail db email = some u → u.resetPasswordToken = some c →
      c ≠ "" →
      verifyOtp cfg db now email c =
        (.error (.Unauthorized "OTP expired."), db)) ∧
    (∀ dto : ResetPasswordDto, dto.newPassword = dto.confirmPassword →
      findByEmail db (strToLower dto.email) = some u →
      u.resetPasswordToken = some dto.otp → dto.otp ≠ "" →
      resetPassword db now dto =
        (.error (.BadRequest "OTP expired. Please request a new one."), db)) := by
  constructor
  · intro c hfind htok hc
    simp [verifyOtp, hfind, htok, hexp, strTruthy, hc, hlt]
  · intro dto heq hfind htok hc
    simp [resetPassword, heq, hfind, htok, hexp, strTruthy, hc, hlt]

/-- A user whose reset challenge "1234" expired at t = 10. -/
def c4User : User :=
  { baseUser with resetPasswordToken := some "1234",
                  resetPasswordExpires := some 10 }

/-- C4 witness: at t = 20 the matching code "1234" is rejected as expired by
both entry points and the store is unchanged. -/
theorem c4_witness :
    verifyOtp baseCfg [c4User] 20 "alice@example.com" "1234" =
      (.error (.Unauthorized "OTP expired."), [c4User]) ∧
    resetPassword [c4User] 20
      { email := "alice@example.com", otp := "1234",
        newPassword := "NewPass123!", confirmPassword := "NewPass123!" } =
      (.error (.BadRequest "OTP expired. Please request a new one."),
       [c4User]) :=
  ⟨(c4_expired_challenge_rejected baseCfg [c4User] 20 10 "alice@example.com"
      c4User rfl (by decide)).1 "1234" (by decide) rfl (by decide),
   (c4_expired_challenge_rejected baseCfg [c4User] 20 10 "alice@example.com"
      c4User rfl (by decide)).2
      { email := "alice@example.com", otp := "1234",
        newPassword := "NewPass123!", confirmPassword := "NewPass123!" }
      rfl (by decide) rfl (by decide)⟩

/-- C9: when the stored expiry field is null the expiry check is skipped
entirely, so a matching code verifies at any time `now` whatsoever, in
`verifyOtp`, `verifyEmail` and `resetPassword` alike. -/
theorem c9_null_expiry_never_expires (db : Db) (now : Nat) (u : User)
    (hexp : u.resetPasswordExpires = none) :
    (∀ cfg email c rs, findByEmail db email = some u →
      u.resetPasswordToken = some c → c ≠ "" →
      Config.jwtRefreshSecret cfg = some rs →
      (verifyOtp cfg db now email c).1.isOk = true) ∧
    (∀ email c, findByEmail db (strToLower email) = some u →
      u.emailVerified = false → u.emailVerificationToken = some c → c ≠ "" →
      (verifyEmail db now email c).1 =
        .ok ⟨"success", "Email verified successfully"⟩) ∧
    (∀ dto : ResetPasswordDto, dto.newPassword = dto.confirmPassword →
      findByEmail db (strToLower dto.email) = some u →
      u.resetPasswordToken = some dto.otp → dto.otp ≠ "" →
      (resetPassword db now dto).1 =
        .ok ⟨"success", "Password reset successfully"⟩) := by
  refine ⟨?_, ?_, ?_⟩
  · intro cfg email c rs hfind htok hc hrs
    simp [verifyOtp, verifyOtpTail, generateTokens, hfind, htok, hexp,
      strTruthy, hc, hrs, Except.isOk, Except.toBool]
  · intro email c hfind hver htok hc
    simp [verifyEmail, hfind, hver, htok, hexp, strTruthy, hc]
  · intro dto heq hfind htok hc
    simp [resetPassword, heq, hfind, htok, hexp, strTruthy, hc]

/-- A user holding reset code "1234" and verification code "5678" with a
null expiry. -/
def c9User : User :=
  { baseUser with emailVerified := false,
                  resetPasswordToken := some "1234",
                  emailVerificationToken := some "5678",
                  resetPasswordExpires := none }

/-- C9 witness: a thousand years later (t = 10^13 ms) the null-expiry codes
still verify in all three entry points. -/
theorem c9_witness :
    (verifyOtp baseCfg [c9User] 10000000000000 "alice@example.com"
      "1234").1.isOk = true ∧
    (verifyEmail [c9User] 10000000000000 "alice@example.com" "5678").1 =
      .ok ⟨"success", "Email verified successfully"⟩ ∧
    (resetPassword [c9User] 10000000000000
      { email := "alice@example.com", otp := "1234",
        newPassword := "NewPass123!", confirmPassword := "NewPass123!" }).1 =
      .ok ⟨"success", "Password reset successfully"⟩ :=
  ⟨(c9_null_expiry_never_expires [c9User] 10000000000000 c9User rfl).1
      baseCfg "alice@example.com" "1234" "refresh-secret" (by decide) rfl
      (by decide) rfl,
   (c9_null_expiry_never_expires [c9User] 10000000000000 c9User rfl).2.1
      "alice@example.com" "5678" (by decide) rfl rfl (by decide),
   (c9_null_expiry_never_expires [c9User] 10000000000000 c9User rfl).2.2
      { email := "alice@example.com", otp := "1234",
        newPassword := "NewPass123!", confirmPassword := "NewPass123!" }
      rfl (by decide) rfl (by decide)⟩

/-- C2 amended: a successful `verifyOtp` clears the challenge slot (code and
expiry set to null), and a second call with the same code then fails — but
with `Unauthorized('Invalid or expired OTP.')`, not NotFound/BadRequest —
and leaves the store unchanged. -/
theorem c2_amended_otp_single_use (cfg : Config) (db : Db) (now now2 : Nat)
    (email c rs : String) (u : User)
    (hfind : findByEmail db email = some u)
    (htok : u.resetPasswordToken = some c) (hc : c ≠ "")
    (hexp : ∀ e, u.resetPasswordExpires = some e → ¬ e < now)
    (hrs : Config.jwtRefreshSecret cfg = some rs) :
    (verifyOtp cfg db now email c).1.isOk = true ∧
    findByEmail (verifyOtp cfg db now email c).2 email =
      some { u with resetPasswordToken := none, resetPasswordExpires := none,
                    lastLoginAt := some now } ∧
    verifyOtp cfg (verifyOtp cfg db now email c).2 now2 email c =
      (.error (.Unauthorized "Invalid or expired OTP."),
       (verifyOtp cfg db now email c).2) := by
  have hcond : ¬((!strTruthy u.resetPasswordToken) = true ∨
      u.resetPasswordToken ≠ some c) := by
    simp [htok, strTruthy, hc]
  have hred : verifyOtp cfg db now email c = verifyOtpTail cfg db now u := by
    simp only [verifyOtp, hfind]
    rw [if_neg hcond]
    cases hx : u.resetPasswordExpires with
    | none => rfl
    | some e =>
      show (if e < now then
              (Except.error (AuthError.Unauthorized "OTP expired."), db)
            else verifyOtpTail cfg db now u) = verifyOtpTail cfg db now u
      rw [if_neg (hexp e hx)]
  have htail : verifyOtpTail cfg db now u =
      (Except.ok ({ status := "success",
                    message := "OTP verified successfully.",
                    user := { id := u.id, email := u.email, role := u.role,
                              emailVerified := u.emailVerified,
                              mfaEnabled := u.mfaEnabled, isEmail := u.isEmail,
                              isNotification := u.isNotification },
                    accessToken := Token.signed
                      { sub := u.id, email := u.email, role := u.role,
                        iat := now, exp := now + cfg.jwtExpiresIn }
                      cfg.jwtSecret,
                    refreshToken := Token.signed
                      { sub := u.id, email := u.email, role := u.role,
                        iat := now, exp := now + cfg.jwtRefreshExpiresIn }
                      rs } : VerifyOtpResp),
       updateById db u.id (fun v =>
         { v with resetPasswordToken := none, resetPasswordExpires := none,
                  lastLoginAt := some now })) := by
    unfold verifyOtpTail generateTokens
    rw [hrs]
  have hfind2 : findByEmail (verifyOtp cfg db now email c).2 email =
      some { u with resetPasswordToken := none, resetPasswordExpires := none,
                    lastLoginAt := some now } := by
    rw [hred, htail]
    simp only []
    rw [findByEmail_updateById db u.id]
    · rw [hfind]
      simp
    · intro v
      rfl
  refine ⟨by rw [hred, htail]; rfl, hfind2, ?_⟩
  generalize hD : (verifyOtp cfg db now email c).2 = D at hfind2 ⊢
  simp only [verifyOtp, hfind2]
  simp [strTruthy]

/-- Store for the C2 scenario: alice holds reset OTP "1234", no expiry. -/
def c2User : User := { baseUser with resetPasswordToken := some "1234" }

/-- C2 counterexample: after a successful `verifyOtp`, the second call with
the same code fails with an `Unauthorized` error ('Invalid or expired
OTP.'), not the `NotFound`/`BadRequest` the claim states. -/
theorem c2_counterexample :
    (verifyOtp baseCfg [c2User] 5 "alice@example.com" "1234").1.isOk = true ∧
    (verifyOtp baseCfg
      (verifyOtp baseCfg [c2User] 5 "alice@example.com" "1234").2 6
      "alice@example.com" "1234").1 =
      .error (.Unauthorized "Invalid or expired OTP.") ∧
    isBadRequestErr (.Unauthorized "Invalid or expired OTP.") = false := by
  decide

/-- C2 amended witness: concrete run of the amended single-use property. -/
theorem c2_amended_witness :
    (verifyOtp baseCfg [c2User] 5 "alice@example.com" "1234").1.isOk = true ∧
    findByEmail (verifyOtp baseCfg [c2User] 5 "alice@example.com" "1234").2
        "alice@example.com" =
      some { c2User with resetPasswordToken := none,
                         resetPasswordExpires := none,
                         lastLoginAt := some 5 } ∧
    verifyOtp baseCfg
        (verifyOtp baseCfg [c2User] 5 "alice@example.com" "1234").2 6
        "alice@example.com" "1234" =
      (.error (.Unauthorized "Invalid or expired OTP."),
       (verifyOtp baseCfg [c2User] 5 "alice@example.com" "1234").2) :=
  c2_amended_otp_single_use baseCfg [c2User] 5 6 "alice@example.com" "1234"
    "refresh-secret" c2User (by decide) rfl (by decide)
    (fun _ he => Option.noConfusion he) rfl

/-- An unverified user for the C3 scenario. -/
def c3User : User :=
  { baseUser with emailVerified := false, status := .PENDING_VERIFICATION }

/-- Store after `forgotPassword` issued reset OTP "1111" at t = 0. -/
def c3Db1 : Db := (forgotPassword [c3User] 0 111 "alice@example.com").2

/-- Store after `resendEmailVerificationOTP` issued verification OTP "1222"
at t = 10, on top of the outstanding reset challenge. -/
def c3Db2 : Db :=
  (resendEmailVerificationOTP c3Db1 10 222 "alice@example.com").2

/-- C3 counterexample: issuing a registration-verification challenge does
NOT invalidate the earlier password-reset challenge — both codes coexist in
two distinct fields and the old reset code still resets the password. -/
theorem c3_counterexample :
    findByEmail c3Db2 "alice@example.com" =
      some { c3User with resetPasswordToken := some "1111",
                         emailVerificationToken := some "1222",
                         resetPasswordExpires := some 600010 } ∧
    (resetPassword c3Db2 20
      { email := "alice@example.com", otp := "1111",
        newPassword := "NewPass123!", confirmPassword := "NewPass123!" }).1 =
      .ok ⟨"success", "Password reset successfully"⟩ := by
  decide

/-- C3 amended: each user has TWO challenge-code fields —
`emailVerificationToken` (registration/verification family) and
`resetPasswordToken` (login-MFA / send-OTP / password-reset family) — which
share the single expiry field `resetPasswordExpires`.  Issuing a challenge
overwrites its own family's code plus the shared expiry, so it invalidates
an unconsumed challenge of the same family but leaves the other family's
code in place (with its expiry refreshed). -/
theorem c3_amended_two_challenge_fields (db : Db) (now r : Nat) :
    (∀ dto : RegisterDto, findByEmail db (strToLower dto.email) = none →
      ∃ nu, (register db now r dto).2 = db ++ [nu] ∧
        nu.emailVerificationToken = some (generateOTP r) ∧
        nu.resetPasswordToken = none ∧
        nu.resetPasswordExpires = some (now + 10 * 60 * 1000)) ∧
    (∀ cfg dto u, findByEmail db (LoginDto.email dto) = some u →
      u.emailVerified = true → bcryptCompare dto.password u.password = true →
      u.mfaEnabled = true → LoginDto.fcmToken dto = none →
      findByEmail (login cfg db now r dto).2 dto.email =
        some { u with resetPasswordToken := some (generateOTP r),
                      resetPasswordExpires := some (now + 5 * 60 * 1000) }) ∧
    (∀ email u, findByEmail db (strToLower email) = some u →
      findByEmail (forgotPassword db now r email).2 (strToLower email) =
        some { u with resetPasswordToken := some (generateOTP r),
                      resetPasswordExpires := some (now + 10 * 60 * 1000) }) ∧
    (∀ email u, findByEmail db (strToLower email) = some u →
      u.emailVerified = false →
      findByEmail (resendEmailVerificationOTP db now r email).2
          (strToLower email) =
        some { u with emailVerificationToken := some (generateOTP r),
                      resetPasswordExpires := some (now + 10 * 60 * 1000) }) := by
  refine ⟨?_, ?_, ?_, ?_⟩
  · intro dto hfind
    unfold register
    rw [hfind]
    exact ⟨_, rfl, rfl, rfl, rfl⟩
  · intro cfg dto u hfind hver hpw hmfa hfcm
    simp only [login, hfind, hver, hpw, hmfa, hfcm, strTruthy]
    simp only [Bool.not_true, Bool.false_eq_true, if_false, if_true]
    rw [findByEmail_updateById db u.id]
    · rw [hfind]
      simp [hver, hmfa]
    · intro v
      rfl
  · intro email u hfind
    unfold forgotPassword
    rw [hfind]
    simp only []
    rw [findByEmail_updateById db u.id]
    · rw [hfind]
      simp
    · intro v
      rfl
  · intro email u hfind hver
    unfold resendEmailVerificationOTP
    rw [hfind]
    simp only []
    rw [if_neg (show ¬(u.emailVerified = true) by simp [hver])]
    rw [findByEmail_updateById db u.id]
    · rw [hfind]
      simp
    · intro v
      rfl

/-- C3 amended witness: on the concrete store, `forgotPassword` writes the
reset field and `resendEmailVerificationOTP` writes the verification field,
both sharing the expiry field. -/
theorem c3_amended_witness :
    findByEmail (forgotPassword [c3User] 0 111 "alice@example.com").2
        (strToLower "alice@example.com") =
      some { c3User with resetPasswordToken := some (generateOTP 111),
                         resetPasswordExpires := some 600000 } ∧
    findByEmail
        (resendEmailVerificationOTP [c3User] 0 222 "alice@example.com").2
        (strToLower "alice@example.com") =
      some { c3User with emailVerificationToken := some (generateOTP 222),
                         resetPasswordExpires := some 600000 } := by
  constructor
  · have h := (c3_amended_two_challenge_fields [c3User] 0 111).2.2.1
      "alice@example.com" c3User (by decide)
    simpa using h
  · have h := (c3_amended_two_challenge_fields [c3User] 0 222).2.2.2
      "alice@example.com" c3User (by decide) rfl
    simpa using h

/-- Looking up the updated row itself after an id-preserving update. -/
theorem findById_updateById_self (db : Db) (i : Nat) (f : User → User)
    (hid : ∀ u, (f u).id = u.id) (v : User) (hv : findById db i = some v)
    (hvid : v.id = i) :
    findById (updateById db i f) i = some (f v) ∧ (f v).id = i := by
  constructor
  · rw [findById_updateById db i f hid i, hv]
    simp [hvid]
  · rw [hid v, hvid]

/-- C7: `login` performs its three checks in order — unknown email,
unverified email, wrong password — each failing with `Unauthorized` and
leaving the store untouched (nothing is issued before the checks pass); on
the non-MFA success path `lastLoginAt` is stamped and the response carries
the token pair plus a user projection whose record type has no password
field. -/
theorem c7_login_checks_and_projection (cfg : Config) (db : Db)
    (now r : Nat) (dto : LoginDto) :
    (findByEmail db dto.email = none →
      login cfg db now r dto =
        (.error (.Unauthorized "No account found with this email."), db)) ∧
    (∀ u, findByEmail db dto.email = some u → u.emailVerified = false →
      login cfg db now r dto =
        (.error (.Unauthorized
          "Email not verified. Please check your email for verification OTP."),
         db)) ∧
    (∀ u, findByEmail db dto.email = some u → u.emailVerified = true →
      bcryptCompare dto.password u.password = false →
      login cfg db now r dto =
        (.error (.Unauthorized "Incorrect password."), db)) ∧
    (∀ u rs, findByEmail db dto.email = some u → u.emailVerified = true →
      bcryptCompare dto.password u.password = true → u.mfaEnabled = false →
      Config.jwtRefreshSecret cfg = some rs →
      (login cfg db now r dto).1 =
        .ok (.success "success" "Successfully logged in."
          { id := u.id, email := u.email, firstname := u.firstName,
            lastname := u.lastName, role := u.role,
            emailVerified := u.emailVerified, mfaEnabled := u.mfaEnabled,
            isEmail := u.isEmail, isNotification := u.isNotification,
            profilePicture := u.profilePicture }
          (Token.signed { sub := u.id, email := u.email, role := u.role,
                          iat := now, exp := now + cfg.jwtExpiresIn }
            cfg.jwtSecret)
          (Token.signed { sub := u.id, email := u.email, role := u.role,
                          iat := now,
                          exp := now + cfg.jwtRefreshExpiresIn } rs)) ∧
      (∃ u', findById (login cfg db now r dto).2 u.id = some u' ∧
        u'.lastLoginAt = some now)) := by
  refine ⟨?_, ?_, ?_, ?_⟩
  · intro h
    simp [login, h]
  · intro u hf hv
    simp [login, hf, hv]
  · intro u hf hv hpw
    simp [login, hf, hv, hpw]
  · intro u rs hf hv hpw hmfa hrs
    obtain ⟨v, hvfind, hvid⟩ := findById_of_findByEmail db dto.email u hf
    constructor
    · simp only [login, hf, hv, hpw, hmfa]
      simp only [Bool.not_true, Bool.not_false, Bool.false_eq_true, if_false,
        if_true, Bool.true_eq_false]
      simp [generateTokens, hrs]
    · simp only [login, hf, hv, hpw, hmfa]
      simp only [Bool.not_true, Bool.not_false, Bool.false_eq_true, if_false,
        if_true, Bool.true_eq_false]
      simp only [generateTokens, hrs]
      by_cases hfcm : strTruthy dto.fcmToken = true
      · simp only [hfcm, if_true]
        have h1 := findById_updateById_self db u.id
          (fun w => { w with fcmToken := dto.fcmToken }) (fun _ => rfl)
          v hvfind hvid
        have h2 := findById_updateById_self
          (updateById db u.id (fun w => { w with fcmToken := dto.fcmToken }))
          u.id (fun w => { w with lastLoginAt := some now }) (fun _ => rfl)
          _ h1.1 h1.2
        exact ⟨_, h2.1, rfl⟩
      · simp only [hfcm, if_false]
        have h1 := findById_updateById_self db u.id
          (fun w => { w with lastLoginAt := some now }) (fun _ => rfl)
          v hvfind hvid
        exact ⟨_, h1.1, rfl⟩

/-- C7 witness: on a concrete verified user, login succeeds with the
password-free projection and stamps `lastLoginAt`; with a wrong password it
fails with `Unauthorized` and an untouched store. -/
theorem c7_witness :
    ((login baseCfg [baseUser] 42 0
      { email := "alice@example.com", password := "Passw0rd!",
        fcmToken := none }).1 =
      .ok (.success "success" "Successfully logged in."
        { id := 1, email := "alice@example.com", firstname := "Alice",
          lastname := "A", role := .USER, emailVerified := true,
          mfaEnabled := false, isEmail := true, isNotification := true,
          profilePicture := none }
        (Token.signed { sub := 1, email := "alice@example.com",
                        role := .USER, iat := 42, exp := 42 + 900000 }
          "access-secret")
        (Token.signed { sub := 1, email := "alice@example.com",
                        role := .USER, iat := 42, exp := 42 + 604800000 }
          "refresh-secret"))) ∧
    (∃ u', findById (login baseCfg [baseUser] 42 0
        { email := "alice@example.com", password := "Passw0rd!",
          fcmToken := none }).2 1 = some u' ∧
      u'.lastLoginAt = some 42) ∧
    login baseCfg [baseUser] 42 0
        { email := "alice@example.com", password := "wrong",
          fcmToken := none } =
      (.error (.Unauthorized "Incorrect password."), [baseUser]) := by
  have h := (c7_login_checks_and_projection baseCfg [baseUser] 42 0
    { email := "alice@example.com", password := "Passw0rd!",
      fcmToken := none }).2.2.2
    baseUser "refresh-secret" (by decide) rfl (by decide) rfl rfl
  have h3 := (c7_login_checks_and_projection baseCfg [baseUser] 42 0
    { email := "alice@example.com", password := "wrong",
      fcmToken := none }).2.2.1
    baseUser (by decide) rfl (by decide)
  exact ⟨h.1, h.2, h3⟩

/-- One request against the auth service (the operations that touch the
user store). -/
inductive AuthOp
  | opLogin (r : Nat) (dto : LoginDto)
  | opSendOtp (r : Nat) (email : String)
  | opVerifyOtp (email otp : String)
  | opRegister (r : Nat) (dto : RegisterDto)
  | opVerifyEmail (email otp : String)
  | opResendVerification (r : Nat) (email : String)
  | opChangePassword (userId : Nat) (dto : ChangePasswordDto)
  | opForgotPassword (r : Nat) (email : String)
  | opResetPassword (dto : ResetPasswordDto)
  | opRefreshToken (tok : Token)

def isVerifyEmailOp : AuthOp → Bool
  | .opVerifyEmail _ _ => true
  | _ => false

/-- The user store after executing one operation. -/
def applyOp (cfg : Config) (db : Db) (now : Nat) : AuthOp → Db
  | .opLogin r dto => (login cfg db now r dto).2
  | .opSendOtp r email => (sendOtp db now r email).2
  | .opVerifyOtp email otp => (verifyOtp cfg db now email otp).2
  | .opRegister r dto => (register db now r dto).2
  | .opVerifyEmail email otp => (verifyEmail db now email otp).2
  | .opResendVerification r email =>
      (resendEmailVerificationOTP db now r email).2
  | .opChangePassword uid dto => (changePassword db now uid dto).2
  | .opForgotPassword r email => (forgotPassword db now r email).2
  | .opResetPassword dto => (resetPassword db now dto).2
  | .opRefreshToken tok => (refreshToken cfg db now tok).2

theorem preservesVS_sendOtp (db : Db) (now r : Nat) (email : String) :
    PreservesVS db (sendOtp db now r email).2 := by
  unfold sendOtp
  split
  · exact preservesVS_refl db
  · rename_i user _
    exact preservesVS_update db user.id _ (fun _ => rfl) (fun _ => rfl)
      (fun _ => rfl)

theorem preservesVS_verifyOtp (cfg : Config) (db : Db) (now : Nat)
    (email otp : String) : PreservesVS db (verifyOtp cfg db now email otp).2 := by
  have htail : ∀ u : User, PreservesVS db (verifyOtpTail cfg db now u).2 := by
    intro u
    unfold verifyOtpTail
    simp only []
    split
    · exact preservesVS_update db u.id _ (fun _ => rfl) (fun _ => rfl)
        (fun _ => rfl)
    · exact preservesVS_update db u.id _ (fun _ => rfl) (fun _ => rfl)
        (fun _ => rfl)
  unfold verifyOtp
  split
  · exact preservesVS_refl db
  · rename_i user _
    split
    · exact preservesVS_refl db
    · split
      · split
        · exact preservesVS_refl db
        · exact htail user
      · exact htail user

theorem preservesVS_register (db : Db) (now r : Nat) (dto : RegisterDto) :
    PreservesVS db (register db now r dto).2 := by
  unfold register
  split
  · exact preservesVS_refl db
  · exact preservesVS_append db _

theorem preservesVS_resendVerification (db : Db) (now r : Nat)
    (email : String) :
    PreservesVS db (resendEmailVerificationOTP db now r email).2 := by
  unfold resendEmailVerificationOTP
  split
  · exact preservesVS_refl db
  · rename_i user _
    split
    · exact preservesVS_refl db
    · exact preservesVS_update db user.id _ (fun _ => rfl) (fun _ => rfl)
        (fun _ => rfl)

theorem preservesVS_changePassword (db : Db) (now : Nat) (uid : Nat)
    (dto : ChangePasswordDto) :
    PreservesVS db (changePassword db now uid dto).2 := by
  unfold changePassword
  split
  · exact preservesVS_refl db
  · split
    · exact preservesVS_refl db
    · exact preservesVS_update db uid _ (fun _ => rfl) (fun _ => rfl)
        (fun _ => rfl)

theorem preservesVS_forgotPassword (db : Db) (now r : Nat) (email : String) :
    PreservesVS db (forgotPassword db now r email).2 := by
  unfold forgotPassword
  split
  · exact preservesVS_refl db
  · rename_i user _
    exact preservesVS_update db user.id _ (fun _ => rfl) (fun _ => rfl)
      (fun _ => rfl)

theorem preservesVS_resetPassword (db : Db) (now : Nat)
    (dto : ResetPasswordDto) : PreservesVS db (resetPassword db now dto).2 := by
  unfold resetPassword
  split
  · exact preservesVS_refl db
  · split
    · exact preservesVS_refl db
    · rename_i user _
      split
      · exact preservesVS_refl db
      · unfold resetPasswordApply
        split
        · split
          · exact preservesVS_refl db
          · exact preservesVS_update db user.id _ (fun _ => rfl)
              (fun _ => rfl) (fun _ => rfl)
        · exact preservesVS_update db user.id _ (fun _ => rfl) (fun _ => rfl)
            (fun _ => rfl)

theorem preservesVS_refreshToken (cfg : Config) (db : Db) (now : Nat)
    (tok : Token) : PreservesVS db (refreshToken cfg db now tok).2 := by
  unfold refreshToken
  split
  · exact preservesVS_refl db
  · split
    · exact preservesVS_refl db
    · split
      · exact preservesVS_refl db
      · rename_i user _
        simp only []
        split
        · exact preservesVS_update db user.id _ (fun _ => rfl) (fun _ => rfl)
            (fun _ => rfl)
        · exact preservesVS_update db user.id _ (fun _ => rfl) (fun _ => rfl)
            (fun _ => rfl)

theorem preservesVS_login (cfg : Config) (db : Db) (now r : Nat)
    (dto : LoginDto) : PreservesVS db (login cfg db now r dto).2 := by
  unfold login
  split
  · exact preservesVS_refl db
  · rename_i user _
    split
    · exact preservesVS_refl db
    · split
      · exact preservesVS_refl db
      · simp only []
        have hdb1 : PreservesVS db
            (if strTruthy dto.fcmToken = true then
              updateById db user.id
                (fun u => { u with fcmToken := dto.fcmToken })
            else db) := by
          split
          · exact preservesVS_update db user.id _ (fun _ => rfl)
              (fun _ => rfl) (fun _ => rfl)
          · exact preservesVS_refl db
        split
        · exact preservesVS_trans hdb1
            (preservesVS_update _ user.id _ (fun _ => rfl) (fun _ => rfl)
              (fun _ => rfl))
        · split
          · exact preservesVS_trans hdb1
              (preservesVS_update _ user.id _ (fun _ => rfl) (fun _ => rfl)
                (fun _ => rfl))
          · exact preservesVS_trans hdb1
              (preservesVS_update _ user.id _ (fun _ => rfl) (fun _ => rfl)
                (fun _ => rfl))

/-- C8: registering a fresh email creates a `PENDING_VERIFICATION`,
unverified user; a second registration of the same email (case-insensitive)
fails with `Conflict` and performs no mutation; successful `verifyEmail` is
what flips the user to verified/ACTIVE; and no other modeled operation
changes any user's `(emailVerified, status)` pair, so the user remains
pending until email verification succeeds. -/
theorem c8_register_conflict_and_pending (cfg : Config) (db : Db)
    (now now2 r r2 : Nat) (dto dto2 : RegisterDto) :
    (findByEmail db (strToLower dto.email) = none →
      (register db now r dto).2 = db ++ [registerRow db now r dto] ∧
      (registerRow db now r dto).status = .PENDING_VERIFICATION ∧
      (registerRow db now r dto).emailVerified = false ∧
      findByEmail (register db now r dto).2 (strToLower dto.email) =
        some (registerRow db now r dto)) ∧
    (findByEmail db (strToLower dto.email) = none →
      strToLower dto2.email = strToLower dto.email →
      register (register db now r dto).2 now2 r2 dto2 =
        (.error (.Conflict "User with this email already exists"),
         (register db now r dto).2)) ∧
    (∀ email otp u, findByEmail db (strToLower email) = some u →
      u.emailVerified = false → u.emailVerificationToken = some otp →
      otp ≠ "" → (∀ e, u.resetPasswordExpires = some e → ¬ e < now) →
      findByEmail (verifyEmail db now email otp).2 (strToLower email) =
        some { u with emailVerified := true, status := .ACTIVE,
                      emailVerificationToken := none,
                      resetPasswordExpires := none, updatedAt := now }) ∧
    (∀ op, isVerifyEmailOp op = false →
      PreservesVS db (applyOp cfg db now op)) := by
  have hreg : findByEmail db (strToLower dto.email) = none →
      (register db now r dto).2 = db ++ [registerRow db now r dto] := by
    intro h
    unfold register
    rw [h]
  have hfindrow : findByEmail db (strToLower dto.email) = none →
      findByEmail (register db now r dto).2 (strToLower dto.email) =
        some (registerRow db now r dto) := by
    intro h
    rw [hreg h, findByEmail_append_of_none db _ _ h]
    unfold findByEmail registerRow
    rw [List.find?_cons_of_pos _ (by simp)]
  refine ⟨fun h => ⟨hreg h, rfl, rfl, hfindrow h⟩, ?_, ?_, ?_⟩
  · intro h he
    have hf2 : findByEmail (register db now r dto).2 (strToLower dto2.email) =
        some (registerRow db now r dto) := by
      rw [he]
      exact hfindrow h
    generalize hD : (register db now r dto).2 = D at hf2 ⊢
    simp only [register, hf2]
  · intro email otp u hfind hver htok hotp hexp
    unfold verifyEmail
    rw [hfind]
    simp only []
    rw [if_neg (show ¬(u.emailVerified = true) by simp [hver])]
    have hcond : ¬((!strTruthy u.emailVerificationToken) = true ∨
        u.emailVerificationToken ≠ some otp) := by
      simp [htok, strTruthy, hotp]
    rw [if_neg hcond]
    have happly : findByEmail (verifyEmailApply db now u.id) (strToLower email) =
        some { u with emailVerified := true, status := .ACTIVE,
                      emailVerificationToken := none,
                      resetPasswordExpires := none, updatedAt := now } := by
      unfold verifyEmailApply
      rw [findByEmail_updateById db u.id]
      · rw [hfind]
        simp
      · intro v
        rfl
    cases hx : u.resetPasswordExpires with
    | none => exact happly
    | some e =>
      show findByEmail
        (if e < now then (Except.error (AuthError.BadRequest
            "OTP expired. Please request a new one."), db)
         else ((Except.ok ⟨"success", "Email verified successfully"⟩ :
            Except AuthError StatusMsg),
           verifyEmailApply db now u.id)).2 (strToLower email) = _
      rw [if_neg (hexp e hx)]
      exact happly
  · intro op hop
    cases op with
    | opLogin r' dto' => exact preservesVS_login cfg db now r' dto'
    | opSendOtp r' email => exact preservesVS_sendOtp db now r' email
    | opVerifyOtp email otp => exact preservesVS_verifyOtp cfg db now email otp
    | opRegister r' dto' => exact preservesVS_register db now r' dto'
    | opVerifyEmail email otp => simp [isVerifyEmailOp] at hop
    | opResendVerification r' email =>
      exact preservesVS_resendVerification db now r' email
    | opChangePassword uid dto' =>
      exact preservesVS_changePassword db now uid dto'
    | opForgotPassword r' email => exact preservesVS_forgotPassword db now r' email
    | opResetPassword dto' => exact preservesVS_resetPassword db now dto'
    | opRefreshToken tok => exact preservesVS_refreshToken cfg db now tok

/-- Registration DTO used by the C8 witness. -/
def regDto : RegisterDto :=
  { email := "Alice@Example.com", password := "Passw0rd!",
    firstName := "Alice", lastName := "A", phone := "0500" }

/-- Second registration of the same address, cased differently. -/
def regDto2 : RegisterDto :=
  { email := "ALICE@EXAMPLE.COM", password := "Other1234",
    firstName := "Al", lastName := "B", phone := "0501" }

/-- C8 witness: concrete duplicate registration conflicts without mutation,
the created row is pending/unverified, and `verifyEmail` flips a concrete
pending user to verified/ACTIVE. -/
theorem c8_witness :
    (register [] 0 111 regDto).2 = [registerRow [] 0 111 regDto] ∧
    (registerRow [] 0 111 regDto).status = .PENDING_VERIFICATION ∧
    (registerRow [] 0 111 regDto).emailVerified = false ∧
    register (register [] 0 111 regDto).2 5 222 regDto2 =
      (.error (.Conflict "User with this email already exists"),
       (register [] 0 111 regDto).2) ∧
    findByEmail (verifyEmail [c9User] 7 "alice@example.com" "5678").2
        (strToLower "alice@example.com") =
      some { c9User with emailVerified := true, status := .ACTIVE,
                         emailVerificationToken := none,
                         resetPasswordExpires := none, updatedAt := 7 } := by
  have h := c8_register_conflict_and_pending baseCfg [] 0 5 111 222
    regDto regDto2
  have hv := c8_register_conflict_and_pending baseCfg [c9User] 7 0 111 222
    regDto regDto2
  have h1 := h.1 rfl
  have h2 := h.2.1 rfl (by decide)
  have h3 := hv.2.2.1 "alice@example.com" "5678" c9User (by decide) rfl rfl
    (by decide) (fun _ he => Option.noConfusion he)
  exact ⟨h1.1, h1.2.1, h1.2.2.1, h2, h3⟩
